import Mathlib

/-!
Verification development for the litellm-wrapper-ui repository.

The definitions below are a shallow embedding of the Python sources
src/auth_dev.py and src/main_dev.py (the current developer version; the
v1.x.y files are earlier copies of the same pipeline with fewer features).
Python dictionaries are modelled as association lists in insertion order,
which matches the insertion-ordered semantics of Python dicts that the
eviction logic of the response cache relies on.  External collaborators
(the Google OAuth endpoints, the upstream LLM gateway, the PyPDF2, docx,
openpyxl and PIL libraries, the UTF-8 codec and the base64 decoder) are
modelled as oracle parameters: each request is run against an arbitrary
environment describing what those collaborators would have returned.
-/

/-! ## Generic string and association-list helpers

String primitives are re-implemented structurally over lists of
characters so that all definitions evaluate inside the kernel.  Each one
mirrors the Python primitive named in its comment. -/

/-- Single-quote character, used to build messages that embed quotes. -/
def squote : Char := Char.ofNat 39

/-- String holding one single-quote character. -/
def squoteStr : String := String.mk [squote]

/-- Python str.lower restricted to ASCII, which is all the sources use. -/
def lowerStr (s : String) : String := String.mk (s.data.map Char.toLower)

/-- Python str.split applied with a dot argument, over characters;
the result is never empty, mirroring the Python behaviour. -/
def splitDot : List Char → List (List Char)
  | [] => [[]]
  | c :: t =>
    let r := splitDot t
    if c = Char.ofNat 46 then [] :: r
    else
      match r with
      | [] => [[c]]
      | h :: t2 => (c :: h) :: t2

/-- Python slicing s[:n] by characters. -/
def takeChars (s : String) (n : Nat) : String := String.mk (s.data.take n)

/-- Python str.strip, removing leading and trailing whitespace. -/
def stripChars (s : String) : String :=
  String.mk (((s.data.dropWhile Char.isWhitespace).reverse.dropWhile Char.isWhitespace).reverse)

/-- Helper for countWords: splits a character list into whitespace-separated
words, accumulating the current word in reverse. -/
def wordsAux : List Char → List Char → List (List Char)
  | [], acc => if acc.isEmpty then [] else [acc.reverse]
  | c :: t, acc =>
    if c.isWhitespace then
      if acc.isEmpty then wordsAux t [] else acc.reverse :: wordsAux t []
    else wordsAux t (c :: acc)

/-- Python len(s.split()): the number of whitespace-separated words. -/
def countWords (s : String) : Nat := (wordsAux s.data []).length

/-- Tests whether the second list starts with the first list. -/
def startsWithChars : List Char → List Char → Bool
  | [], _ => true
  | _ :: _, [] => false
  | a :: as, b :: bs => a = b && startsWithChars as bs

/-- Tests whether sub occurs contiguously inside the second list. -/
def charsContains (sub : List Char) : List Char → Bool
  | [] => sub.isEmpty
  | c :: t => startsWithChars sub (c :: t) || charsContains sub t

/-- Python substring membership: sub in s. -/
def strContains (s sub : String) : Bool := charsContains sub.data s.data

/-- Model of re.search for a single-quoted group: returns the first
nonempty run of non-quote characters enclosed in single quotes, scanning
left to right, or none when no such run exists. -/
def findQuoted : List Char → Option String
  | [] => none
  | c :: rest =>
    if c = squote then
      let run := rest.takeWhile (fun d => decide (d ≠ squote))
      if run.isEmpty then findQuoted rest
      else
        match rest.dropWhile (fun d => decide (d ≠ squote)) with
        | [] => none
        | _ :: _ => some (String.mk run)
    else findQuoted rest

/-- Python dict lookup d.get(k) over an insertion-ordered association list. -/
def lookupA {α : Type} : List (String × α) → String → Option α
  | [], _ => none
  | (k, v) :: rest, key => if k = key then some v else lookupA rest key

/-- Python dict assignment d[k] = v: updates the value in place when the key
is present, otherwise appends the new pair at the end (insertion order). -/
def alistUpdate {α : Type} : List (String × α) → String → α → List (String × α)
  | [], key, v => [(key, v)]
  | (k, w) :: rest, key, v =>
    if k = key then (k, v) :: rest else (k, w) :: alistUpdate rest key v

/-- In-place mutation of the value stored under a key (no-op when absent). -/
def alistModify {α : Type} : List (String × α) → String → (α → α) → List (String × α)
  | [], _, _ => []
  | (k, w) :: rest, key, f =>
    if k = key then (k, f w) :: rest else (k, w) :: alistModify rest key f

/-- Python truthiness of an optional string: None and the empty string are
falsy, every other string is truthy. -/
def truthyStr : Option String → Bool
  | none => false
  | some s => decide (s ≠ "")

/-- Python expression x or d for an optional string x. -/
def pyOrStr (o : Option String) (dflt : String) : String :=
  match o with
  | none => dflt
  | some s => if s = "" then dflt else s

/-! ## Usage tracker (src/auth_dev.py lines 21-70)

The environment-driven configuration values ADMIN_EMAIL,
DEMO_REQUEST_LIMIT and DEMO_TOKEN_LIMIT are fields of a configuration
record.  The user_usage dict maps an email to a mutable record; the
last_reset field of the Python record is a constant None and is omitted. -/

/-- Environment-driven configuration (auth_dev.py lines 21-23). -/
structure Config where
  ADMIN_EMAIL : String
  DEMO_REQUEST_LIMIT : Nat
  DEMO_TOKEN_LIMIT : Nat
deriving DecidableEq, Repr

/-- Per-user usage counters (auth_dev.py lines 36-40). -/
structure UsageRecord where
  request_count : Nat
  token_count : Nat
deriving DecidableEq, Repr

/-- Zeroed usage record created on first access. -/
def zeroUsage : UsageRecord := ⟨0, 0⟩

/-- Value of the counters as an external reader sees them: the stored
record when one exists, and the zeroed record otherwise. -/
def readUsage (tbl : List (String × UsageRecord)) (email : String) : UsageRecord :=
  (lookupA tbl email).getD zeroUsage

/-- auth_dev.py is_admin_user (lines 29-31). -/
def is_admin_user (cfg : Config) (email : String) : Bool :=
  decide (email = cfg.ADMIN_EMAIL)

/-- auth_dev.py get_user_usage (lines 33-41): returns the record for the
email, creating a zeroed one in the table when absent. -/
def get_user_usage (tbl : List (String × UsageRecord)) (email : String) :
    UsageRecord × List (String × UsageRecord) :=
  match lookupA tbl email with
  | some u => (u, tbl)
  | none => (zeroUsage, alistUpdate tbl email zeroUsage)

/-- auth_dev.py check_demo_limits (lines 43-61): returns the pair
(can_proceed, error_message) together with the possibly extended table. -/
def check_demo_limits (cfg : Config) (tbl : List (String × UsageRecord)) (email : String) :
    (Bool × String) × List (String × UsageRecord) :=
  if is_admin_user cfg email then ((true, ""), tbl)
  else
    if cfg.DEMO_REQUEST_LIMIT ≤ (get_user_usage tbl email).1.request_count then
      ((false, "Demo limit reached (" ++ toString cfg.DEMO_REQUEST_LIMIT ++
        " requests). Contact admin for full access."), (get_user_usage tbl email).2)
    else if cfg.DEMO_TOKEN_LIMIT ≤ (get_user_usage tbl email).1.token_count then
      ((false, "Demo token limit reached (" ++ toString cfg.DEMO_TOKEN_LIMIT ++
        " tokens). Contact admin for full access."), (get_user_usage tbl email).2)
    else ((true, ""), (get_user_usage tbl email).2)

/-- auth_dev.py increment_usage (lines 63-70). -/
def increment_usage (cfg : Config) (tbl : List (String × UsageRecord)) (email : String)
    (estimated_tokens : Nat) : List (String × UsageRecord) :=
  if is_admin_user cfg email then tbl
  else
    alistUpdate (get_user_usage tbl email).2 email
      ⟨(get_user_usage tbl email).1.request_count + 1,
       (get_user_usage tbl email).1.token_count + estimated_tokens⟩

/-- Iterated increment_usage, one call per entry of the token list. -/
def increment_usage_many (cfg : Config) (tbl : List (String × UsageRecord)) (email : String)
    (toks : List Nat) : List (String × UsageRecord) :=
  toks.foldl (fun t n => increment_usage cfg t email n) tbl

/-! ## File content extractor (src/main_dev.py lines 59-130)

The optional third-party libraries are oracles: each field describes what
the library would have produced on the given bytes, with Except.error for
an exception the library raised.  Bytes are lists of naturals. -/

/-- Oracle describing the external file-processing libraries. -/
structure FileEnv where
  PDF_AVAILABLE : Bool
  IMAGE_AVAILABLE : Bool
  utf8Decode : List Nat → Option String
  pdfPages : List Nat → Except String (List String)
  docxParagraphs : List Nat → Except String (List String)
  xlsxSheets : List Nat → Except String (List (String × List (List (Option String))))
  imageMeta : List Nat → Except String (String × Nat × Nat × String)
  b64decode : String → Option (List Nat)

/-- Python file_name.lower().split(dot)[-1] (main_dev.py line 62). -/
def extOf (name : String) : String :=
  String.mk ((splitDot (lowerStr name).data).getLastD [])

/-- main_dev.py process_file_content (lines 59-130).  Every branch catches
its own failures; the function is total by construction, mirroring the
outer try/except that converts any residual error into a string. -/
def process_file_content (env : FileEnv) (file_data : List Nat) (file_name : String) : String :=
  let file_extension := extOf file_name
  if file_extension ∈ ["txt", "json", "yaml", "yml", "md", "csv", "log"] then
    match env.utf8Decode file_data with
    | some s => s
    | none => "[Binary text file: " ++ file_name ++ "]"
  else if file_extension = "pdf" ∧ env.PDF_AVAILABLE then
    match env.pdfPages file_data with
    | Except.ok pages =>
        "\n".intercalate
          (pages.enum.flatMap (fun p => ["--- Page " ++ toString (p.1 + 1) ++ " ---", p.2]))
    | Except.error e => "[PDF processing error: " ++ e ++ "]"
  else if file_extension = "docx" ∧ env.IMAGE_AVAILABLE then
    match env.docxParagraphs file_data with
    | Except.ok paras =>
        "\n".intercalate (paras.filter (fun p => decide (stripChars p ≠ "")))
    | Except.error e => "[DOCX processing error: " ++ e ++ "]"
  else if (file_extension = "xlsx" ∨ file_extension = "xls") ∧ env.IMAGE_AVAILABLE then
    match env.xlsxSheets file_data with
    | Except.ok sheets =>
        "\n".intercalate
          (sheets.flatMap (fun sheet =>
            ("--- Sheet: " ++ sheet.1 ++ " ---") ::
            ((sheet.2.filter (fun row => row.any (fun cell => cell.isSome))).map
              (fun row => "\t".intercalate (row.map (fun cell => cell.getD ""))))))
    | Except.error e => "[Excel processing error: " ++ e ++ "]"
  else if file_extension ∈ ["jpg", "jpeg", "png", "gif", "bmp", "webp"] ∧ env.IMAGE_AVAILABLE then
    match env.imageMeta file_data with
    | Except.ok meta =>
        "\nImage Analysis:\n- Format: " ++ meta.1 ++ "\n- Size: " ++ toString meta.2.1 ++
        "x" ++ toString meta.2.2.1 ++ " pixels\n- Mode: " ++ meta.2.2.2 ++
        "\n- File: " ++ file_name ++ "\n"
    | Except.error e => "[Image processing error: " ++ e ++ "]"
  else
    "[Unsupported file type: " ++ file_extension ++ "]"

/-! ## Chat orchestrator data model (src/main_dev.py lines 53-57, 339-539) -/

/-- One chat turn as stored in a session.  The optional fourth field
records the is_image_request key, which only user turns carry. -/
structure ChatTurn where
  role : String
  content : String
  file_name : Option String
  is_image_request : Option Bool
deriving DecidableEq, Repr

/-- Form fields of a POST /api/chat request (main_dev.py lines 340-348). -/
structure ChatRequest where
  message : String
  model : String
  session_id : String
  file_content : Option String
  file_name : Option String
  is_image_request : Bool
deriving DecidableEq, Repr

/-- Process-wide mutable dictionaries: chat_sessions and response_cache
(main_dev.py lines 54 and 57) and user_usage (auth_dev.py line 27). -/
structure AppState where
  chat_sessions : List (String × List ChatTurn)
  response_cache : List (String × String)
  user_usage : List (String × UsageRecord)
deriving DecidableEq, Repr

/-- Extracted message of one element of the choices array: the content
field, with none standing for a missing message or content key. -/
structure UpstreamMessage where
  content : Option String
deriving DecidableEq, Repr

/-- Parsed JSON body of the upstream chat-completions response: the error
field when present, and the choices field when present. -/
structure UpstreamChatResult where
  error : Option String
  choices : Option (List UpstreamMessage)
deriving DecidableEq, Repr

/-- Oracle for the outcome of the upstream call in the text path: either a
parsed JSON body, or one of the transport-level failures the except
clauses of main_dev.py lines 520-539 distinguish. -/
inductive UpstreamOutcome where
  | ok (result : UpstreamChatResult)
  | httpStatusError (status : Nat) (text : String)
  | timeoutError
  | connectError
  | jsonDecodeError
  | unexpectedError (typeName msg : String)
deriving DecidableEq, Repr

/-- Payload returned by the endpoint: a success body with content and
file_name, an error body with error text and file_name, or the transfer
of control to handle_image_generation, which this development does not
model further (no claim concerns the image path beyond the dispatch). -/
inductive ChatResponse where
  | success (content : String) (file_name : Option String)
  | error (message : String) (file_name : Option String)
  | imageDispatch
deriving DecidableEq, Repr

/-- Result of one request: the payload, the new shared state, whether the
upstream gateway was called, and whether the uploaded file was decoded
and extracted. -/
structure ChatOutcome where
  response : ChatResponse
  state : AppState
  upstreamCalled : Bool
  fileProcessed : Bool
deriving DecidableEq, Repr

/-- main_dev.py is_image_generation_model (lines 132-140). -/
def image_models : List String :=
  ["dall-e-3", "dall-e-2", "dall-e", "midjourney", "stable-diffusion",
   "sdxl", "kandinsky", "deepfloyd"]

/-- Tests whether any known image-model name occurs in the lowercased
model name (main_dev.py line 140). -/
def is_image_generation_model (model : String) : Bool :=
  image_models.any (fun img_model => strContains (lowerStr model) img_model)

/-- Image-path condition of main_dev.py line 371. -/
def should_generate_image (req : ChatRequest) : Bool :=
  req.is_image_request || (is_image_generation_model req.model && !(truthyStr req.file_content))

/-- Cache key of main_dev.py line 387.  At the point the key is built,
user_content still equals the raw message text, so the key depends only on
the model, the message and the file name (with the no_file sentinel). -/
def cacheKey (model user_content : String) (file_name : Option String) : String :=
  model ++ ":" ++ user_content ++ ":" ++ pyOrStr file_name "no_file"

/-- Cache insertion followed by the bounded-size eviction of main_dev.py
lines 504-512: after the write, when more than 100 entries exist, the
first 20 keys in insertion order are deleted. -/
def cachePut (cache : List (String × String)) (key value : String) : List (String × String) :=
  let c := alistUpdate cache key value
  if 100 < c.length then
    let oldest_keys := (c.map Prod.fst).take 20
    c.filter (fun kv => decide (kv.1 ∉ oldest_keys))
  else c

/-- Iterated cachePut, one insertion per pair. -/
def cachePutAll (cache : List (String × String)) (kvs : List (String × String)) :
    List (String × String) :=
  kvs.foldl (fun c kv => cachePut c kv.1 kv.2) cache

/-- User turn appended to the session (main_dev.py lines 362-368). -/
def userTurn (req : ChatRequest) : ChatTurn :=
  ⟨"user", req.message,
   if truthyStr req.file_content then req.file_name else none,
   some req.is_image_request⟩

/-- Assistant turn appended on a cache hit or a success return
(main_dev.py lines 392-397 and 497-502). -/
def assistantTurn (content : String) : ChatTurn :=
  ⟨"assistant", content, none, none⟩

/-- Session initialisation and user-turn append (main_dev.py lines
357-368): the session list is created when absent, then the user turn is
appended at its end. -/
def sessionsAfterUserTurn (sessions : List (String × List ChatTurn)) (req : ChatRequest) :
    List (String × List ChatTurn) :=
  let s0 := if lookupA sessions req.session_id = none
            then alistUpdate sessions req.session_id [] else sessions
  alistModify s0 req.session_id (fun turns => turns ++ [userTurn req])

/-- File decoding and extraction block of main_dev.py lines 400-412:
returns the user_content sent upstream and whether the file was decoded
and extracted.  A base64 failure is caught and embedded as a note. -/
def fileBlock (env : FileEnv) (req : ChatRequest) : String × Bool :=
  if truthyStr req.file_content && truthyStr req.file_name then
    let fn := req.file_name.getD ""
    let fc := req.file_content.getD ""
    let file_info :=
      match env.b64decode fc with
      | none => "\n\n[Uploaded file: " ++ fn ++ " (could not decode)]"
      | some file_data =>
          let file_text := process_file_content env file_data fn
          if file_text ≠ "" then
            let ftrunc := if 4000 < file_text.length
              then takeChars file_text 4000 ++ "\n... (truncated)" else file_text
            "\n\n[Uploaded file: " ++ fn ++ "]\n---\n" ++ ftrunc ++ "\n---"
          else "\n\n[Uploaded file: " ++ fn ++ " (binary or non-text)]"
    (req.message ++ file_info, true)
  else (req.message, false)

/-- Try block of the text path (main_dev.py lines 462-539): dispatch on
the upstream outcome and classify it.  Every error return leaves the
state untouched; only the success return appends the assistant turn,
writes the cache and increments usage. -/
def handle_upstream (cfg : Config) (outcome : UpstreamOutcome) (email : String)
    (req : ChatRequest) (user_content cache_key : String) (fileProcessed : Bool)
    (st : AppState) : ChatOutcome :=
  match outcome with
  | UpstreamOutcome.ok result =>
    match result.error with
    | some error_msg =>
      if strContains error_msg "NotFoundError" then
        match findQuoted error_msg.data with
        | some model_name =>
            ⟨ChatResponse.error ("Model " ++ squoteStr ++ model_name ++ squoteStr ++
              " not found. Please select a different model from the dropdown.") req.file_name,
             st, true, fileProcessed⟩
        | none =>
            ⟨ChatResponse.error
              "Model not found. Please select a different model from the dropdown." req.file_name,
             st, true, fileProcessed⟩
      else ⟨ChatResponse.error error_msg req.file_name, st, true, fileProcessed⟩
    | none =>
      match result.choices with
      | some (choice :: _) =>
          let assistant_message := choice.content.getD "No response received"
          if assistant_message = "" ∨ assistant_message = "No response received" then
            ⟨ChatResponse.error "No response content received from API" req.file_name,
             st, true, fileProcessed⟩
          else
            ⟨ChatResponse.success assistant_message req.file_name,
             ⟨alistModify st.chat_sessions req.session_id
                (fun turns => turns ++ [assistantTurn assistant_message]),
              cachePut st.response_cache cache_key assistant_message,
              increment_usage cfg st.user_usage email
                (countWords assistant_message + countWords user_content)⟩,
             true, fileProcessed⟩
      | some [] =>
          ⟨ChatResponse.error "Invalid response format from API" req.file_name,
           st, true, fileProcessed⟩
      | none =>
          ⟨ChatResponse.error "Invalid response format from API" req.file_name,
           st, true, fileProcessed⟩
  | UpstreamOutcome.httpStatusError status text =>
      if status = 404 then
        ⟨ChatResponse.error ("Model " ++ squoteStr ++ req.model ++ squoteStr ++
          " not found. Please select a different model from the dropdown.") req.file_name,
         st, true, fileProcessed⟩
      else if status = 401 then
        ⟨ChatResponse.error "Authentication failed. Please check your API key." req.file_name,
         st, true, fileProcessed⟩
      else if status = 403 then
        ⟨ChatResponse.error
          "Access forbidden. Please check your API key and permissions." req.file_name,
         st, true, fileProcessed⟩
      else
        ⟨ChatResponse.error ("API error (" ++ toString status ++ "): " ++ text) req.file_name,
         st, true, fileProcessed⟩
  | UpstreamOutcome.timeoutError =>
      ⟨ChatResponse.error "Request timed out. Please try again." req.file_name,
       st, true, fileProcessed⟩
  | UpstreamOutcome.connectError =>
      ⟨ChatResponse.error
        "Could not connect to the API server. Please check your internet connection." req.file_name,
       st, true, fileProcessed⟩
  | UpstreamOutcome.jsonDecodeError =>
      ⟨ChatResponse.error "Invalid JSON response from API" req.file_name,
       st, true, fileProcessed⟩
  | UpstreamOutcome.unexpectedError typeName msg =>
      ⟨ChatResponse.error ("Unexpected error: " ++ typeName ++ ": " ++ msg) req.file_name,
       st, true, fileProcessed⟩

/-- main_dev.py chat_completion (lines 339-539) for an authenticated user
with the given email.  Order of effects, as in the source: limit check
first (returning the denial payload before any session write), then
session initialisation and user-turn append, then the image-path
dispatch, then the cache probe, then file extraction and the upstream
call with its classification. -/
def chat_completion (cfg : Config) (env : FileEnv) (outcome : UpstreamOutcome)
    (email : String) (req : ChatRequest) (st : AppState) : ChatOutcome :=
  if (check_demo_limits cfg st.user_usage email).1.1 then
    let sessions1 := sessionsAfterUserTurn st.chat_sessions req
    let st2 : AppState := ⟨sessions1, st.response_cache, (check_demo_limits cfg st.user_usage email).2⟩
    if should_generate_image req then
      ⟨ChatResponse.imageDispatch, st2, false, false⟩
    else
      match lookupA st2.response_cache (cacheKey req.model req.message req.file_name) with
      | some cached_response =>
          ⟨ChatResponse.success cached_response req.file_name,
           ⟨alistModify st2.chat_sessions req.session_id
              (fun turns => turns ++ [assistantTurn cached_response]),
            st2.response_cache, st2.user_usage⟩,
           false, false⟩
      | none =>
          let fb := fileBlock env req
          handle_upstream cfg outcome email req fb.1
            (cacheKey req.model req.message req.file_name) fb.2 st2
  else
    ⟨ChatResponse.error (check_demo_limits cfg st.user_usage email).1.2 req.file_name,
     ⟨st.chat_sessions, st.response_cache, (check_demo_limits cfg st.user_usage email).2⟩,
     false, false⟩

/-! ## Auth gateway (src/auth_dev.py lines 104-175) -/

/-- Profile returned by the userinfo endpoint; name and picture may be
absent (the source reads them with dict get defaults). -/
structure GoogleUserInfo where
  id : String
  email : String
  name : Option String
  picture : Option String
deriving DecidableEq, Repr

/-- User record built on a successful callback (auth_dev.py lines 141-148). -/
structure UserIdentity where
  id : String
  email : String
  name : String
  picture : String
  is_admin : Bool
  usage : UsageRecord
deriving DecidableEq, Repr

/-- Web-session contents relevant to the callback. -/
structure SessionData where
  oauth_state : Option String
  user : Option UserIdentity
deriving DecidableEq, Repr

/-- State touched by the callback: the request session, the process-wide
users table keyed by id, and the usage table. -/
structure AuthCallbackState where
  session : SessionData
  users : List (String × UserIdentity)
  user_usage : List (String × UsageRecord)
deriving DecidableEq, Repr

/-- Oracle for the token exchange plus userinfo fetch: Except.error is any
exception raised inside the try block (caught by the outer handler). -/
structure OAuthEnv where
  fetchUser : String → Except String GoogleUserInfo

/-- auth_dev.py auth_callback (lines 104-175): returns the redirect target
and the new state.  Fails closed on a state mismatch, then on a missing
or empty authorization code, then converts any exchange failure into the
auth_failed redirect; only the full success stores an identity. -/
def auth_callback (cfg : Config) (env : OAuthEnv) (st : AuthCallbackState)
    (code qstate : Option String) : String × AuthCallbackState :=
  if qstate ≠ st.session.oauth_state then
    ("/login?error=invalid_state", st)
  else if (code.getD "") = "" then
    ("/login?error=no_code", st)
  else
    match env.fetchUser (code.getD "") with
    | Except.error _ => ("/login?error=auth_failed", st)
    | Except.ok info =>
        let g := get_user_usage st.user_usage info.email
        let user : UserIdentity :=
          ⟨info.id, info.email, info.name.getD "", info.picture.getD "",
           is_admin_user cfg info.email, g.1⟩
        ("/", ⟨⟨none, some user⟩, alistUpdate st.users info.id user, g.2⟩)

/-! ## Concrete sample values used by witnesses and counterexamples -/

/-- Sample library oracle: UTF-8 decoding always yields the string hello,
PDF parsing always fails, base64 decoding always fails. -/
def sampleFileEnv : FileEnv :=
  ⟨true, true, fun _ => some "hello", fun _ => Except.error "bad xref",
   fun _ => Except.ok [], fun _ => Except.ok [],
   fun _ => Except.ok ("PNG", 1, 1, "RGB"), fun _ => none⟩

/-- Sample OAuth oracle whose exchange always fails. -/
def sampleOAuthEnv : OAuthEnv := ⟨fun _ => Except.error "network down"⟩

/-- Sample configuration with the default demo ceilings. -/
def cfgA : Config := ⟨"admin@example.com", 2, 100⟩

/-- Key made of n copies of the letter a; distinct lengths give distinct
keys, which yields 101 pairwise distinct cache keys below. -/
def nameOfIdx (n : Nat) : String := String.mk (List.replicate n (Char.ofNat 97))

/-- 101 cache insertions with pairwise distinct keys. -/
def kvs101 : List (String × String) := (List.range 101).map (fun n => (nameOfIdx n, "v"))

/-- A full cache of 100 pairwise distinct keys. -/
def cache100 : List (String × String) := (List.range 100).map (fun n => (nameOfIdx n, "v"))

/-! ## Association-list lemmas -/

/-- Lookup ignores a right extension once the left part answers. -/
theorem lookupA_append_some {α : Type} {l1 : List (String × α)} (l2 : List (String × α))
    {k : String} {v : α} (h : lookupA l1 k = some v) : lookupA (l1 ++ l2) k = some v := by
  induction l1 with
  | nil => simp [lookupA] at h
  | cons hd tl ih =>
    obtain ⟨k1, v1⟩ := hd
    rw [List.cons_append]
    simp only [lookupA] at h ⊢
    by_cases hk : k1 = k
    · rwa [if_pos hk] at h ⊢
    · rw [if_neg hk] at h ⊢
      exact ih h

/-- Lookup passes to the right extension when the left part misses. -/
theorem lookupA_append_none {α : Type} {l1 : List (String × α)} (l2 : List (String × α))
    {k : String} (h : lookupA l1 k = none) : lookupA (l1 ++ l2) k = lookupA l2 k := by
  induction l1 with
  | nil => simp
  | cons hd tl ih =>
    obtain ⟨k1, v1⟩ := hd
    rw [List.cons_append]
    simp only [lookupA] at h ⊢
    by_cases hk : k1 = k
    · rw [if_pos hk] at h; exact absurd h (by simp)
    · rw [if_neg hk] at h ⊢
      exact ih h

/-- Characterisation of a failed lookup by key absence. -/
theorem lookupA_eq_none_iff {α : Type} {l : List (String × α)} {k : String} :
    lookupA l k = none ↔ k ∉ l.map Prod.fst := by
  induction l with
  | nil => simp [lookupA]
  | cons hd tl ih =>
    obtain ⟨k1, v1⟩ := hd
    simp only [lookupA, List.map_cons, List.mem_cons]
    by_cases hk : k1 = k
    · subst hk
      simp
    · rw [if_neg hk, ih]
      constructor
      · intro h hmem
        rcases hmem with h1 | h2
        · exact hk h1.symm
        · exact h h2
      · intro h h2
        exact h (Or.inr h2)

/-- Assignment of a fresh key appends the pair at the end. -/
theorem alistUpdate_fresh {α : Type} {l : List (String × α)} {k : String} (v : α)
    (h : lookupA l k = none) : alistUpdate l k v = l ++ [(k, v)] := by
  induction l with
  | nil => simp [alistUpdate]
  | cons hd tl ih =>
    obtain ⟨k1, v1⟩ := hd
    simp only [lookupA] at h
    simp only [alistUpdate, List.cons_append]
    by_cases hk : k1 = k
    · rw [if_pos hk] at h; exact absurd h (by simp)
    · rw [if_neg hk] at h
      rw [if_neg hk, ih h]

/-- Assignment makes the key readable with the written value. -/
theorem lookupA_alistUpdate_self {α : Type} (l : List (String × α)) (k : String) (v : α) :
    lookupA (alistUpdate l k v) k = some v := by
  induction l with
  | nil => simp [alistUpdate, lookupA]
  | cons hd tl ih =>
    obtain ⟨k1, v1⟩ := hd
    simp only [alistUpdate]
    by_cases hk : k1 = k
    · rw [if_pos hk]
      simp only [lookupA, if_pos hk]
    · rw [if_neg hk]
      simp only [lookupA, if_neg hk]
      exact ih

/-- Assignment leaves other keys unchanged. -/
theorem lookupA_alistUpdate_other {α : Type} (l : List (String × α)) {k k2 : String} (v : α)
    (h : k ≠ k2) : lookupA (alistUpdate l k v) k2 = lookupA l k2 := by
  induction l with
  | nil => simp [alistUpdate, lookupA, h]
  | cons hd tl ih =>
    obtain ⟨k1, v1⟩ := hd
    simp only [alistUpdate]
    by_cases hk : k1 = k
    · subst hk
      rw [if_pos rfl]
      simp only [lookupA, if_neg h]
    · rw [if_neg hk]
      simp only [lookupA]
      by_cases hk2 : k1 = k2
      · rw [if_pos hk2, if_pos hk2]
      · rw [if_neg hk2, if_neg hk2]
        exact ih

/-- Mutation under a key maps its value. -/
theorem lookupA_alistModify_self {α : Type} (l : List (String × α)) (k : String) (f : α → α) :
    lookupA (alistModify l k f) k = (lookupA l k).map f := by
  induction l with
  | nil => simp [alistModify, lookupA]
  | cons hd tl ih =>
    obtain ⟨k1, v1⟩ := hd
    simp only [alistModify]
    by_cases hk : k1 = k
    · rw [if_pos hk]
      simp [lookupA, if_pos hk]
    · rw [if_neg hk]
      simp only [lookupA, if_neg hk]
      exact ih

/-- Filtering cannot make an absent key present. -/
theorem lookupA_filter_none {α : Type} {l : List (String × α)} {k : String}
    (p : String × α → Bool) (h : lookupA l k = none) : lookupA (l.filter p) k = none := by
  induction l with
  | nil => simp [lookupA]
  | cons hd tl ih =>
    obtain ⟨k1, v1⟩ := hd
    simp only [lookupA] at h
    by_cases hk : k1 = k
    · rw [if_pos hk] at h; exact absurd h (by simp)
    · rw [if_neg hk] at h
      rw [List.filter_cons]
      by_cases hp : p (k1, v1)
      · rw [if_pos hp]
        simp only [lookupA, if_neg hk]
        exact ih h
      · rw [if_neg hp]
        exact ih h

/-! ## Usage tracker lemmas and claims C4, C5 -/

/-- Record component of get_user_usage equals the externally read value. -/
theorem get_user_usage_fst (tbl : List (String × UsageRecord)) (email : String) :
    (get_user_usage tbl email).1 = readUsage tbl email := by
  unfold get_user_usage readUsage
  cases h : lookupA tbl email <;> simp [h]

/-- Lazy creation of a record never changes any externally read counter. -/
theorem readUsage_get_user_usage_snd (tbl : List (String × UsageRecord)) (email e : String) :
    readUsage (get_user_usage tbl email).2 e = readUsage tbl e := by
  unfold get_user_usage
  cases h : lookupA tbl email with
  | some u => simp
  | none =>
    by_cases he : email = e
    · subst he
      simp [readUsage, lookupA_alistUpdate_self, h]
    · simp [readUsage, lookupA_alistUpdate_other _ _ he]

/-- Checking limits never changes any externally read counter. -/
theorem readUsage_check_snd (cfg : Config) (tbl : List (String × UsageRecord)) (email e : String) :
    readUsage (check_demo_limits cfg tbl email).2 e = readUsage tbl e := by
  unfold check_demo_limits
  split
  · rfl
  · split
    · simp [readUsage_get_user_usage_snd]
    · split <;> simp [readUsage_get_user_usage_snd]

/-- Claim C4: check_limits returns allowed with an empty reason for the
admin email; for every other email it allows exactly when both counters
are below their ceilings, and the reason text of a denial is decided by
the request ceiling first and the token ceiling second. -/
theorem check_limits_spec (cfg : Config) (tbl : List (String × UsageRecord)) (email : String) :
    (email = cfg.ADMIN_EMAIL → check_demo_limits cfg tbl email = ((true, ""), tbl)) ∧
    (email ≠ cfg.ADMIN_EMAIL →
      (((check_demo_limits cfg tbl email).1.1 = true) ↔
        ((readUsage tbl email).request_count < cfg.DEMO_REQUEST_LIMIT ∧
         (readUsage tbl email).token_count < cfg.DEMO_TOKEN_LIMIT)) ∧
      (cfg.DEMO_REQUEST_LIMIT ≤ (readUsage tbl email).request_count →
        (check_demo_limits cfg tbl email).1.2 =
          "Demo limit reached (" ++ toString cfg.DEMO_REQUEST_LIMIT ++
          " requests). Contact admin for full access.") ∧
      ((readUsage tbl email).request_count < cfg.DEMO_REQUEST_LIMIT →
       cfg.DEMO_TOKEN_LIMIT ≤ (readUsage tbl email).token_count →
        (check_demo_limits cfg tbl email).1.2 =
          "Demo token limit reached (" ++ toString cfg.DEMO_TOKEN_LIMIT ++
          " tokens). Contact admin for full access.")) := by
  constructor
  · intro h
    unfold check_demo_limits is_admin_user
    simp [h]
  · intro h
    have ha : is_admin_user cfg email = false := by
      unfold is_admin_user; simp [h]
    unfold check_demo_limits
    rw [ha, get_user_usage_fst]
    constructor
    · by_cases h1 : cfg.DEMO_REQUEST_LIMIT ≤ (readUsage tbl email).request_count
      · simp [h1, Nat.not_lt_of_le h1]
      · by_cases h2 : cfg.DEMO_TOKEN_LIMIT ≤ (readUsage tbl email).token_count
        · simp [h1, h2, Nat.not_lt_of_le h2]
        · simp [h1, h2, Nat.lt_of_not_le h1, Nat.lt_of_not_le h2]
    · constructor
      · intro h1
        simp [h1]
      · intro h1 h2
        simp [Nat.not_le_of_lt h1, h2]

/-- Witness for check_limits_spec at a concrete configuration, with the
admin email on an empty table and a demo email at its request ceiling. -/
theorem check_limits_spec_witness :
    ("admin@example.com" = cfgA.ADMIN_EMAIL →
       check_demo_limits cfgA [] "admin@example.com" = ((true, ""), [])) ∧
    ("demo@example.com" ≠ cfgA.ADMIN_EMAIL →
      (((check_demo_limits cfgA [("demo@example.com", ⟨2, 10⟩)] "demo@example.com").1.1 = true) ↔
        ((readUsage [("demo@example.com", ⟨2, 10⟩)] "demo@example.com").request_count <
           cfgA.DEMO_REQUEST_LIMIT ∧
         (readUsage [("demo@example.com", ⟨2, 10⟩)] "demo@example.com").token_count <
           cfgA.DEMO_TOKEN_LIMIT)) ∧
      (cfgA.DEMO_REQUEST_LIMIT ≤
         (readUsage [("demo@example.com", ⟨2, 10⟩)] "demo@example.com").request_count →
        (check_demo_limits cfgA [("demo@example.com", ⟨2, 10⟩)] "demo@example.com").1.2 =
          "Demo limit reached (" ++ toString cfgA.DEMO_REQUEST_LIMIT ++
          " requests). Contact admin for full access.") ∧
      ((readUsage [("demo@example.com", ⟨2, 10⟩)] "demo@example.com").request_count <
         cfgA.DEMO_REQUEST_LIMIT →
       cfgA.DEMO_TOKEN_LIMIT ≤
         (readUsage [("demo@example.com", ⟨2, 10⟩)] "demo@example.com").token_count →
        (check_demo_limits cfgA [("demo@example.com", ⟨2, 10⟩)] "demo@example.com").1.2 =
          "Demo token limit reached (" ++ toString cfgA.DEMO_TOKEN_LIMIT ++
          " tokens). Contact admin for full access.")) :=
  ⟨(check_limits_spec cfgA [] "admin@example.com").1,
   (check_limits_spec cfgA [("demo@example.com", ⟨2, 10⟩)] "demo@example.com").2⟩

/-- Incrementing a non-admin user adds one request and the token estimate
to the externally read counters. -/
theorem readUsage_increment_self (cfg : Config) (tbl : List (String × UsageRecord))
    (email : String) (toks : Nat) (h : email ≠ cfg.ADMIN_EMAIL) :
    readUsage (increment_usage cfg tbl email toks) email =
      ⟨(readUsage tbl email).request_count + 1, (readUsage tbl email).token_count + toks⟩ := by
  have ha : is_admin_user cfg email = false := by
    unfold is_admin_user; simp [h]
  unfold increment_usage
  rw [ha]
  simp only [Bool.false_eq_true, if_false, get_user_usage_fst]
  unfold readUsage
  rw [lookupA_alistUpdate_self]
  rfl

/-- Iterated increments add the number of calls to the request counter of
a non-admin user. -/
theorem readUsage_increment_many (cfg : Config) (email : String)
    (h : email ≠ cfg.ADMIN_EMAIL) (l : List Nat) :
    ∀ tbl : List (String × UsageRecord),
      (readUsage (increment_usage_many cfg tbl email l) email).request_count =
        (readUsage tbl email).request_count + l.length := by
  induction l with
  | nil => intro tbl; simp [increment_usage_many]
  | cons n t ih =>
    intro tbl
    have step := readUsage_increment_self cfg tbl email n h
    unfold increment_usage_many at ih ⊢
    simp only [List.foldl_cons]
    rw [ih (increment_usage cfg tbl email n), step]
    simp [Nat.add_comm, Nat.add_assoc, Nat.add_left_comm]

/-- Claim C5: increment is a no-op for the admin email; for every other
email one call adds exactly one request and exactly the token estimate,
N increments from a fresh record leave request_count equal to N, and
check_limits denies once request_count has reached the request ceiling. -/
theorem increment_usage_spec (cfg : Config) (tbl : List (String × UsageRecord))
    (email : String) (toks : Nat) :
    (email = cfg.ADMIN_EMAIL → increment_usage cfg tbl email toks = tbl) ∧
    (email ≠ cfg.ADMIN_EMAIL →
      readUsage (increment_usage cfg tbl email toks) email =
        ⟨(readUsage tbl email).request_count + 1, (readUsage tbl email).token_count + toks⟩) ∧
    (∀ l : List Nat, email ≠ cfg.ADMIN_EMAIL → (readUsage tbl email).request_count = 0 →
      (readUsage (increment_usage_many cfg tbl email l) email).request_count = l.length) ∧
    (email ≠ cfg.ADMIN_EMAIL → cfg.DEMO_REQUEST_LIMIT ≤ (readUsage tbl email).request_count →
      (check_demo_limits cfg tbl email).1.1 = false) := by
  refine ⟨?_, ?_, ?_, ?_⟩
  · intro h
    unfold increment_usage is_admin_user
    simp [h]
  · intro h
    exact readUsage_increment_self cfg tbl email toks h
  · intro l h h0
    rw [readUsage_increment_many cfg email h l tbl, h0, Nat.zero_add]
  · intro h h1
    have ha : is_admin_user cfg email = false := by
      unfold is_admin_user; simp [h]
    unfold check_demo_limits
    rw [ha, get_user_usage_fst]
    simp [h1]

/-- Witness for increment_usage_spec: a concrete admin call, one concrete
demo increment, three iterated increments from a fresh record, and a
denial at the ceiling. -/
theorem increment_usage_spec_witness :
    ("admin@example.com" = cfgA.ADMIN_EMAIL →
       increment_usage cfgA [] "admin@example.com" 50 = []) ∧
    ("demo@example.com" ≠ cfgA.ADMIN_EMAIL →
      readUsage (increment_usage cfgA [] "demo@example.com" 50) "demo@example.com" =
        ⟨(readUsage [] "demo@example.com").request_count + 1,
         (readUsage [] "demo@example.com").token_count + 50⟩) ∧
    ("demo@example.com" ≠ cfgA.ADMIN_EMAIL → (readUsage [] "demo@example.com").request_count = 0 →
      (readUsage (increment_usage_many cfgA [] "demo@example.com" [5, 6, 7])
        "demo@example.com").request_count = [5, 6, 7].length) ∧
    ("demo@example.com" ≠ cfgA.ADMIN_EMAIL →
     cfgA.DEMO_REQUEST_LIMIT ≤ (readUsage [("demo@example.com", ⟨2, 10⟩)] "demo@example.com").request_count →
      (check_demo_limits cfgA [("demo@example.com", ⟨2, 10⟩)] "demo@example.com").1.1 = false) :=
  ⟨(increment_usage_spec cfgA [] "admin@example.com" 50).1,
   (increment_usage_spec cfgA [] "demo@example.com" 50).2.1,
   fun h h0 => (increment_usage_spec cfgA [] "demo@example.com" 50).2.2.1 [5, 6, 7] h h0,
   (increment_usage_spec cfgA [("demo@example.com", ⟨2, 10⟩)] "demo@example.com" 50).2.2.2⟩

/-! ## Response cache lemmas and claim C3 -/

/-- Filtering out the first n keys of a duplicate-free association list
removes exactly its first n entries. -/
theorem filter_not_take_keys (l : List (String × String)) (n : Nat)
    (hnd : (l.map Prod.fst).Nodup) :
    l.filter (fun kv => decide (kv.1 ∉ (l.map Prod.fst).take n)) = l.drop n := by
  have hdisj : ((l.map Prod.fst).take n).Disjoint ((l.map Prod.fst).drop n) := by
    have h2 : ((l.map Prod.fst).take n ++ (l.map Prod.fst).drop n).Nodup := by
      rw [List.take_append_drop]; exact hnd
    exact (List.nodup_append.mp h2).2.2
  have key : ∀ (p : String × String → Bool),
      (∀ kv ∈ l.take n, ¬ p kv) → (∀ kv ∈ l.drop n, p kv) → l.filter p = l.drop n := by
    intro p h1 h2
    conv_lhs => rw [← List.take_append_drop n l]
    rw [List.filter_append, List.filter_eq_nil_iff.mpr h1, List.filter_eq_self.mpr h2,
      List.nil_append]
  apply key
  · intro kv hmem
    have hkey : kv.1 ∈ (l.map Prod.fst).take n := by
      rw [← List.map_take]
      exact List.mem_map_of_mem Prod.fst hmem
    simp [hkey]
  · intro kv hmem
    have hkey : kv.1 ∈ (l.map Prod.fst).drop n := by
      rw [← List.map_drop]
      exact List.mem_map_of_mem Prod.fst hmem
    simp only [decide_eq_true_eq]
    exact fun hin => hdisj hin hkey

/-- Inserting a fresh key into a cache that stays within the bound is a
plain append. -/
theorem cachePut_fresh_small (cache : List (String × String)) (k v : String)
    (h : lookupA cache k = none) (hlen : cache.length + 1 ≤ 100) :
    cachePut cache k v = cache ++ [(k, v)] := by
  simp only [cachePut]
  rw [alistUpdate_fresh (k := k) v h]
  have : ¬ 100 < (cache ++ [(k, v)]).length := by
    simp only [List.length_append, List.length_cons, List.length_nil]
    omega
  rw [if_neg this]

/-- Inserting a fresh key into a full duplicate-free cache appends the
pair and then drops the 20 earliest-inserted entries. -/
theorem cachePut_fresh_big (cache : List (String × String)) (k v : String)
    (h : lookupA cache k = none) (hnd : (cache.map Prod.fst).Nodup)
    (hlen : 100 < cache.length + 1) :
    cachePut cache k v = (cache ++ [(k, v)]).drop 20 := by
  simp only [cachePut]
  rw [alistUpdate_fresh (k := k) v h]
  have hlen2 : 100 < (cache ++ [(k, v)]).length := by
    simp only [List.length_append, List.length_cons, List.length_nil]
    omega
  rw [if_pos hlen2]
  have hnd2 : ((cache ++ [(k, v)]).map Prod.fst).Nodup := by
    rw [List.map_append]
    rw [List.nodup_append]
    refine ⟨hnd, by simp, ?_⟩
    intro a ha hb
    simp only [List.map_cons, List.map_nil, List.mem_singleton] at hb
    subst hb
    exact absurd ha (lookupA_eq_none_iff.mp h)
  exact filter_not_take_keys (cache ++ [(k, v)]) 20 hnd2

/-- Key freshly written by cachePut is readable afterwards: the eviction
never removes the entry just inserted. -/
theorem lookupA_cachePut_fresh (cache : List (String × String)) (k v : String)
    (h : lookupA cache k = none) : lookupA (cachePut cache k v) k = some v := by
  simp only [cachePut]
  rw [alistUpdate_fresh (k := k) v h]
  by_cases hlen : 100 < (cache ++ [(k, v)]).length
  · rw [if_pos hlen]
    have hcachelen : 100 ≤ cache.length := by
      simp only [List.length_append, List.length_cons, List.length_nil] at hlen
      omega
    have hkeys : ((cache ++ [(k, v)]).map Prod.fst).take 20 = (cache.map Prod.fst).take 20 := by
      rw [List.map_append]
      exact List.take_append_of_le_length (by rw [List.length_map]; omega)
    rw [hkeys, List.filter_append]
    have hnotin : k ∉ (cache.map Prod.fst).take 20 := by
      intro hmem
      exact lookupA_eq_none_iff.mp h (List.take_subset 20 _ hmem)
    have hsingle : ([(k, v)].filter
        (fun kv => decide (kv.1 ∉ (cache.map Prod.fst).take 20))) = [(k, v)] := by
      simp [hnotin]
    rw [hsingle]
    rw [lookupA_append_none _ (lookupA_filter_none _ h)]
    simp [lookupA]
  · rw [if_neg hlen]
    rw [lookupA_append_none _ h]
    simp [lookupA]

/-- Folding distinct fresh insertions that keep the cache within the
bound appends them all in order. -/
theorem cachePutAll_no_evict :
    ∀ (kvs cache : List (String × String)),
      ((cache ++ kvs).map Prod.fst).Nodup → (cache ++ kvs).length ≤ 100 →
      cachePutAll cache kvs = cache ++ kvs := by
  intro kvs
  induction kvs with
  | nil => intro cache _ _; simp [cachePutAll]
  | cons kv rest ih =>
    intro cache hnd hlen
    have hfresh : lookupA cache kv.1 = none := by
      rw [lookupA_eq_none_iff]
      intro hmem
      rw [List.map_append, List.nodup_append] at hnd
      exact hnd.2.2 hmem (by simp)
    have hlen1 : cache.length + 1 ≤ 100 := by
      simp only [List.length_append, List.length_cons] at hlen
      omega
    have hput : cachePut cache kv.1 kv.2 = cache ++ [kv] := by
      rw [cachePut_fresh_small cache kv.1 kv.2 hfresh hlen1]
    have hassoc : (cache ++ [kv]) ++ rest = cache ++ kv :: rest := by
      rw [List.append_assoc]; rfl
    have hres := ih (cache ++ [kv]) (by rw [hassoc]; exact hnd) (by rw [hassoc]; exact hlen)
    simp only [cachePutAll, List.foldl_cons] at hres ⊢
    rw [hput] at *
    rw [hres, hassoc]

/-- Claim C3: after an insertion that pushes the cache above 100 entries
the 20 earliest-inserted entries are removed (by insertion order, not
access order); consequently 101 distinct insertions into an empty cache
leave exactly the last 81 entries, hence at most 81, with the 20
earliest-inserted keys absent. -/
theorem cache_eviction_spec (kvs cache : List (String × String)) (k v : String) :
    ((cache.map Prod.fst).Nodup → lookupA cache k = none → 100 < cache.length + 1 →
      cachePut cache k v = (cache ++ [(k, v)]).drop 20) ∧
    (kvs.length = 101 → (kvs.map Prod.fst).Nodup →
      cachePutAll [] kvs = kvs.drop 20 ∧
      (cachePutAll [] kvs).length ≤ 81 ∧
      ∀ key ∈ (kvs.map Prod.fst).take 20, lookupA (cachePutAll [] kvs) key = none) := by
  constructor
  · intro hnd h hlen
    exact cachePut_fresh_big cache k v h hnd hlen
  · intro hlen hnd
    have hsplit : kvs.take 100 ++ kvs.drop 100 = kvs := List.take_append_drop 100 kvs
    have hlen100 : (kvs.take 100).length = 100 := by
      rw [List.length_take]; omega
    have hlendrop : (kvs.drop 100).length = 1 := by
      rw [List.length_drop]; omega
    obtain ⟨x, hx⟩ := List.length_eq_one.mp hlendrop
    have hnd1 : ((kvs.take 100).map Prod.fst).Nodup := by
      rw [List.map_take]
      exact (List.take_sublist 100 _).nodup hnd
    have hall1 : cachePutAll [] (kvs.take 100) = kvs.take 100 := by
      have := cachePutAll_no_evict (kvs.take 100) []
      simp only [List.nil_append] at this
      exact this hnd1 (by omega)
    have hfreshx : lookupA (kvs.take 100) x.1 = none := by
      rw [lookupA_eq_none_iff, List.map_take]
      have hnd2 : ((kvs.map Prod.fst).take 100 ++ (kvs.map Prod.fst).drop 100).Nodup := by
        rw [List.take_append_drop]; exact hnd
      have hdisj := (List.nodup_append.mp hnd2).2.2
      intro hmem
      refine hdisj hmem ?_
      rw [← List.map_drop, hx]
      simp
    have hstep : cachePutAll [] kvs = cachePut (kvs.take 100) x.1 x.2 := by
      conv_lhs => rw [← hsplit, hx]
      simp only [cachePutAll, List.foldl_append, List.foldl_cons, List.foldl_nil]
      rw [show (kvs.take 100).foldl (fun c kv => cachePut c kv.1 kv.2) [] =
            cachePutAll [] (kvs.take 100) from rfl, hall1]
    have hbig : cachePut (kvs.take 100) x.1 x.2 = ((kvs.take 100) ++ [x]).drop 20 := by
      rw [cachePut_fresh_big (kvs.take 100) x.1 x.2 hfreshx hnd1 (by omega)]
    have hfull : (kvs.take 100) ++ [x] = kvs := by
      rw [← hx]; exact hsplit
    have hfinal : cachePutAll [] kvs = kvs.drop 20 := by
      rw [hstep, hbig]
      rw [hfull]
    refine ⟨hfinal, ?_, ?_⟩
    · rw [hfinal, List.length_drop, hlen]
    · intro key hkey
      rw [hfinal, lookupA_eq_none_iff, List.map_drop]
      have hnd3 : ((kvs.map Prod.fst).take 20 ++ (kvs.map Prod.fst).drop 20).Nodup := by
        rw [List.take_append_drop]; exact hnd
      exact fun hmem => (List.nodup_append.mp hnd3).2.2 hkey hmem

/-- Keys of distinct lengths are distinct. -/
theorem nameOfIdx_injective : Function.Injective nameOfIdx := by
  intro a b h
  have h2 : List.replicate a (Char.ofNat 97) = List.replicate b (Char.ofNat 97) := by
    injection h
  have h3 := congrArg List.length h2
  simpa using h3

/-- Keys of the 101 sample insertions. -/
theorem kvs101_keys : kvs101.map Prod.fst = (List.range 101).map nameOfIdx := by
  simp [kvs101, List.map_map]

/-- Keys of the sample full cache. -/
theorem cache100_keys : cache100.map Prod.fst = (List.range 100).map nameOfIdx := by
  simp [cache100, List.map_map]

/-- Witness for cache_eviction_spec: 101 concrete pairwise-distinct keys
inserted into the empty cache, and one concrete fresh insertion into a
concrete full cache. -/
theorem cache_eviction_spec_witness :
    ((cache100.map Prod.fst).Nodup ∧ lookupA cache100 (nameOfIdx 100) = none ∧
      100 < cache100.length + 1 ∧
      cachePut cache100 (nameOfIdx 100) "v" = (cache100 ++ [(nameOfIdx 100, "v")]).drop 20) ∧
    (kvs101.length = 101 ∧ (kvs101.map Prod.fst).Nodup ∧
      (cachePutAll [] kvs101 = kvs101.drop 20 ∧
       (cachePutAll [] kvs101).length ≤ 81 ∧
       ∀ key ∈ (kvs101.map Prod.fst).take 20, lookupA (cachePutAll [] kvs101) key = none)) := by
  have hnd100 : (cache100.map Prod.fst).Nodup := by
    rw [cache100_keys]
    exact (List.nodup_range 100).map nameOfIdx_injective
  have hnd101 : (kvs101.map Prod.fst).Nodup := by
    rw [kvs101_keys]
    exact (List.nodup_range 101).map nameOfIdx_injective
  have hfresh : lookupA cache100 (nameOfIdx 100) = none := by
    rw [lookupA_eq_none_iff, cache100_keys]
    intro hmem
    simp only [List.mem_map, List.mem_range] at hmem
    obtain ⟨a, ha, heq⟩ := hmem
    have := nameOfIdx_injective heq
    omega
  have hlen100 : cache100.length = 100 := by simp [cache100]
  have hlen101 : kvs101.length = 101 := by simp [kvs101]
  exact ⟨⟨hnd100, hfresh, by omega,
          (cache_eviction_spec kvs101 cache100 (nameOfIdx 100) "v").1 hnd100 hfresh (by omega)⟩,
         ⟨hlen101, hnd101,
          (cache_eviction_spec kvs101 cache100 (nameOfIdx 100) "v").2 hlen101 hnd101⟩⟩

/-! ## File content extractor: claim C6 -/

/-- Associativity of string concatenation, via the underlying lists. -/
theorem strAppend_assoc (a b c : String) : (a ++ b) ++ c = a ++ (b ++ c) := by
  obtain ⟨la⟩ := a
  obtain ⟨lb⟩ := b
  obtain ⟨lc⟩ := c
  show String.mk ((la ++ lb) ++ lc) = String.mk (la ++ (lb ++ lc))
  rw [List.append_assoc]

/-- Claim C6: process_file_content is a total function into strings (it is
a Lean function, mirroring that every branch of the source catches its own
failures); a txt payload whose bytes decode as UTF-8 is returned decoded
and unchanged, and a pdf payload whose parsing raises yields a string
containing the text PDF processing error instead of an exception. -/
theorem process_file_spec (env : FileEnv) (data : List Nat) (name : String) (s e : String) :
    (extOf name = "txt" → env.utf8Decode data = some s →
      process_file_content env data name = s) ∧
    (extOf name = "pdf" → env.PDF_AVAILABLE = true → env.pdfPages data = Except.error e →
      ∃ a b, process_file_content env data name = a ++ "PDF processing error" ++ b) := by
  constructor
  · intro hext hdec
    unfold process_file_content
    rw [hext]
    have hmem : ("txt" : String) ∈ ["txt", "json", "yaml", "yml", "md", "csv", "log"] := by
      decide
    rw [if_pos hmem, hdec]
  · intro hext hpdf herr
    unfold process_file_content
    rw [hext]
    have hmem : ¬ ("pdf" : String) ∈ ["txt", "json", "yaml", "yml", "md", "csv", "log"] := by
      decide
    rw [if_neg hmem, if_pos ⟨rfl, hpdf⟩, herr]
    refine ⟨"[", ": " ++ e ++ "]", ?_⟩
    show "[PDF processing error: " ++ e ++ "]" =
      ("[" ++ "PDF processing error") ++ ((": " ++ e) ++ "]")
    have h1 : ("[PDF processing error: " : String) = ("[" ++ "PDF processing error") ++ ": " := by
      rfl
    rw [h1, strAppend_assoc ("[" ++ "PDF processing error") ": " e,
      strAppend_assoc ("[" ++ "PDF processing error") (": " ++ e) "]"]

/-- Witness for process_file_spec: a concrete txt payload that decodes and
a concrete pdf payload whose parsing fails, run against the sample
library oracle. -/
theorem process_file_spec_witness :
    (extOf "notes.txt" = "txt" ∧ sampleFileEnv.utf8Decode [104] = some "hello" ∧
      process_file_content sampleFileEnv [104] "notes.txt" = "hello") ∧
    (extOf "doc.pdf" = "pdf" ∧ sampleFileEnv.PDF_AVAILABLE = true ∧
      sampleFileEnv.pdfPages [1] = Except.error "bad xref" ∧
      ∃ a b, process_file_content sampleFileEnv [1] "doc.pdf" =
        a ++ "PDF processing error" ++ b) :=
  ⟨⟨by decide, rfl,
    (process_file_spec sampleFileEnv [104] "notes.txt" "hello" "bad xref").1 (by decide) rfl⟩,
   ⟨by decide, rfl, rfl,
    (process_file_spec sampleFileEnv [1] "doc.pdf" "hello" "bad xref").2 (by decide) rfl rfl⟩⟩

/-! ## Chat orchestrator path lemmas -/

/-- Session contents after initialisation and the user-turn append: the
prior turns (empty for a new session) extended with the user turn. -/
theorem lookupA_sessionsAfterUserTurn (s : List (String × List ChatTurn)) (req : ChatRequest) :
    lookupA (sessionsAfterUserTurn s req) req.session_id =
      some (((lookupA s req.session_id).getD []) ++ [userTurn req]) := by
  unfold sessionsAfterUserTurn
  cases h : lookupA s req.session_id with
  | none =>
    simp [lookupA_alistModify_self, lookupA_alistUpdate_self]
  | some turns =>
    rw [if_neg (by simp [h])]
    rw [lookupA_alistModify_self, h]
    rfl

/-- Denied-path equation: when the limit check fails, the endpoint returns
the denial payload at once; the sessions and the cache are exactly those
of the pre-state and no upstream call is made. -/
theorem chat_denied_eq (cfg : Config) (env : FileEnv) (outcome : UpstreamOutcome)
    (email : String) (req : ChatRequest) (st : AppState)
    (hc : (check_demo_limits cfg st.user_usage email).1.1 = false) :
    chat_completion cfg env outcome email req st =
      ⟨ChatResponse.error (check_demo_limits cfg st.user_usage email).1.2 req.file_name,
       ⟨st.chat_sessions, st.response_cache, (check_demo_limits cfg st.user_usage email).2⟩,
       false, false⟩ := by
  simp [chat_completion, hc]

/-- Image-dispatch equation: after the user turn is appended, a request
flagged for image generation transfers control to the image handler. -/
theorem chat_image_eq (cfg : Config) (env : FileEnv) (outcome : UpstreamOutcome)
    (email : String) (req : ChatRequest) (st : AppState)
    (hc : (check_demo_limits cfg st.user_usage email).1.1 = true)
    (himg : should_generate_image req = true) :
    chat_completion cfg env outcome email req st =
      ⟨ChatResponse.imageDispatch,
       ⟨sessionsAfterUserTurn st.chat_sessions req, st.response_cache,
        (check_demo_limits cfg st.user_usage email).2⟩,
       false, false⟩ := by
  simp [chat_completion, hc, himg]

/-- Cache-hit equation: the cached reply is returned and appended as an
assistant turn with no upstream call, no file processing, no cache write
and no usage increment. -/
theorem chat_hit_eq (cfg : Config) (env : FileEnv) (outcome : UpstreamOutcome)
    (email : String) (req : ChatRequest) (st : AppState) (cached : String)
    (hc : (check_demo_limits cfg st.user_usage email).1.1 = true)
    (himg : should_generate_image req = false)
    (hhit : lookupA st.response_cache (cacheKey req.model req.message req.file_name) =
      some cached) :
    chat_completion cfg env outcome email req st =
      ⟨ChatResponse.success cached req.file_name,
       ⟨alistModify (sessionsAfterUserTurn st.chat_sessions req) req.session_id
          (fun turns => turns ++ [assistantTurn cached]),
        st.response_cache, (check_demo_limits cfg st.user_usage email).2⟩,
       false, false⟩ := by
  simp [chat_completion, hc, himg, hhit]

/-- Cache-miss equation: control reaches the upstream block with the file
block applied and the state holding the appended user turn. -/
theorem chat_miss_eq (cfg : Config) (env : FileEnv) (outcome : UpstreamOutcome)
    (email : String) (req : ChatRequest) (st : AppState)
    (hc : (check_demo_limits cfg st.user_usage email).1.1 = true)
    (himg : should_generate_image req = false)
    (hmiss : lookupA st.response_cache (cacheKey req.model req.message req.file_name) = none) :
    chat_completion cfg env outcome email req st =
      handle_upstream cfg outcome email req (fileBlock env req).1
        (cacheKey req.model req.message req.file_name) (fileBlock env req).2
        ⟨sessionsAfterUserTurn st.chat_sessions req, st.response_cache,
         (check_demo_limits cfg st.user_usage email).2⟩ := by
  simp [chat_completion, hc, himg, hmiss]

/-- Every error return of the upstream block leaves the state untouched. -/
theorem handle_upstream_error_state (cfg : Config) (outcome : UpstreamOutcome) (email : String)
    (req : ChatRequest) (uc key : String) (fp : Bool) (st : AppState) (msg : String)
    (fn : Option String) :
    (handle_upstream cfg outcome email req uc key fp st).response = ChatResponse.error msg fn →
    (handle_upstream cfg outcome email req uc key fp st).state = st := by
  cases outcome with
  | ok result =>
    cases hE : result.error with
    | some e =>
      simp only [handle_upstream, hE]
      split_ifs with hb
      · cases hq : findQuoted e.data <;> intro _ <;> rfl
      · intro _; rfl
    | none =>
      cases hC : result.choices with
      | none => simp only [handle_upstream, hE, hC]; intro _; trivial
      | some cs =>
        cases cs with
        | nil => simp only [handle_upstream, hE, hC]; intro _; trivial
        | cons c rest =>
          simp only [handle_upstream, hE, hC]
          split_ifs with hcond
          · intro _; rfl
          · intro h; simp at h
  | httpStatusError status text =>
    simp only [handle_upstream]
    split_ifs <;> (intro _; rfl)
  | timeoutError => intro _; rfl
  | connectError => intro _; rfl
  | jsonDecodeError => intro _; rfl
  | unexpectedError typeName msg2 => intro _; rfl

/-- A success return of the upstream block makes the cache key readable
with the returned content, provided the key was fresh. -/
theorem handle_upstream_success_cache (cfg : Config) (outcome : UpstreamOutcome) (email : String)
    (req : ChatRequest) (uc key : String) (fp : Bool) (st : AppState) (m : String)
    (fn : Option String) (hfresh : lookupA st.response_cache key = none) :
    (handle_upstream cfg outcome email req uc key fp st).response = ChatResponse.success m fn →
    lookupA (handle_upstream cfg outcome email req uc key fp st).state.response_cache key =
      some m := by
  cases outcome with
  | ok result =>
    cases hE : result.error with
    | some e =>
      simp only [handle_upstream, hE]
      split_ifs with hb
      · cases hq : findQuoted e.data <;> intro h <;> simp at h
      · intro h; simp at h
    | none =>
      cases hC : result.choices with
      | none => simp only [handle_upstream, hE, hC]; intro h; simp at h
      | some cs =>
        cases cs with
        | nil => simp only [handle_upstream, hE, hC]; intro h; simp at h
        | cons c rest =>
          simp only [handle_upstream, hE, hC]
          split_ifs with hcond
          · intro h; simp at h
          · intro h
            simp only [ChatResponse.success.injEq] at h
            obtain ⟨hm, _⟩ := h
            show lookupA (cachePut st.response_cache key
              (c.content.getD "No response received")) key = some m
            rw [lookupA_cachePut_fresh st.response_cache key _ hfresh, hm]
  | httpStatusError status text =>
    simp only [handle_upstream]
    split_ifs <;> (intro h; simp at h)
  | timeoutError => intro h; simp [handle_upstream] at h
  | connectError => intro h; simp [handle_upstream] at h
  | jsonDecodeError => intro h; simp [handle_upstream] at h
  | unexpectedError typeName msg2 => intro h; simp [handle_upstream] at h

/-- A request whose payload is a success has left the cache holding its
key with the returned content, whether the success came from a cache hit
or from a fresh upstream reply. -/
theorem chat_success_cache (cfg : Config) (env : FileEnv) (outcome : UpstreamOutcome)
    (email : String) (req : ChatRequest) (st : AppState) (m : String) (fn : Option String) :
    (chat_completion cfg env outcome email req st).response = ChatResponse.success m fn →
    lookupA (chat_completion cfg env outcome email req st).state.response_cache
      (cacheKey req.model req.message req.file_name) = some m := by
  by_cases hc : (check_demo_limits cfg st.user_usage email).1.1 = true
  · by_cases himg : should_generate_image req = true
    · rw [chat_image_eq cfg env outcome email req st hc himg]
      intro h; simp at h
    · have himg2 : should_generate_image req = false := by
        simpa using himg
      cases hhit : lookupA st.response_cache (cacheKey req.model req.message req.file_name) with
      | some cached =>
        rw [chat_hit_eq cfg env outcome email req st cached hc himg2 hhit]
        intro h
        simp only [ChatResponse.success.injEq] at h
        obtain ⟨hm, _⟩ := h
        show lookupA st.response_cache (cacheKey req.model req.message req.file_name) = some m
        rw [hhit, hm]
      | none =>
        rw [chat_miss_eq cfg env outcome email req st hc himg2 hhit]
        intro h
        exact handle_upstream_success_cache cfg outcome email req (fileBlock env req).1
          (cacheKey req.model req.message req.file_name) (fileBlock env req).2
          ⟨sessionsAfterUserTurn st.chat_sessions req, st.response_cache,
           (check_demo_limits cfg st.user_usage email).2⟩ m fn hhit h
  · have hc2 : (check_demo_limits cfg st.user_usage email).1.1 = false := by
      simpa using hc
    rw [chat_denied_eq cfg env outcome email req st hc2]
    intro h; simp at h

/-! ## Claims C1, C2, C7, C9, C10 -/

/-- Counterexample for claim C1 as frozen: at a concrete denied request
the endpoint does return the denial payload, but the session table is
still completely empty, so the user turn is NOT present in the session
when the denial is returned (the limit check precedes the append). -/
theorem usage_denial_user_turn_absent :
    (chat_completion cfgA sampleFileEnv UpstreamOutcome.timeoutError "demo@example.com"
      ⟨"hi", "gpt-4", "s1", none, none, false⟩
      ⟨[], [], [("demo@example.com", ⟨2, 10⟩)]⟩).response =
      ChatResponse.error "Demo limit reached (2 requests). Contact admin for full access." none ∧
    (chat_completion cfgA sampleFileEnv UpstreamOutcome.timeoutError "demo@example.com"
      ⟨"hi", "gpt-4", "s1", none, none, false⟩
      ⟨[], [], [("demo@example.com", ⟨2, 10⟩)]⟩).state.chat_sessions = [] := by
  constructor <;> decide

/-- Claim C1 (amended): when the usage-limit check denies a request, the
endpoint returns the error payload with the denial reason and the file
name immediately, makes no upstream call, and performs no session
mutation at all — the user turn has not yet been appended when the denial
is returned, because the check precedes the append; the cache and every
externally read usage counter are also unchanged. -/
theorem usage_denial_immediate (cfg : Config) (env : FileEnv) (outcome : UpstreamOutcome)
    (email : String) (req : ChatRequest) (st : AppState)
    (hc : (check_demo_limits cfg st.user_usage email).1.1 = false) :
    (chat_completion cfg env outcome email req st).response =
      ChatResponse.error (check_demo_limits cfg st.user_usage email).1.2 req.file_name ∧
    (chat_completion cfg env outcome email req st).upstreamCalled = false ∧
    (chat_completion cfg env outcome email req st).state.chat_sessions = st.chat_sessions ∧
    (chat_completion cfg env outcome email req st).state.response_cache = st.response_cache ∧
    (∀ e, readUsage (chat_completion cfg env outcome email req st).state.user_usage e =
      readUsage st.user_usage e) := by
  rw [chat_denied_eq cfg env outcome email req st hc]
  refine ⟨rfl, rfl, rfl, rfl, ?_⟩
  intro e
  show readUsage (check_demo_limits cfg st.user_usage email).2 e = readUsage st.user_usage e
  exact readUsage_check_snd cfg st.user_usage email e

/-- Witness for usage_denial_immediate at a concrete denied request. -/
theorem usage_denial_immediate_witness :
    ((check_demo_limits cfgA [("demo@example.com", ⟨2, 10⟩)] "demo@example.com").1.1 = false) ∧
    ((chat_completion cfgA sampleFileEnv UpstreamOutcome.timeoutError "demo@example.com"
        ⟨"hi", "gpt-4", "s1", none, none, false⟩
        ⟨[], [], [("demo@example.com", ⟨2, 10⟩)]⟩).response =
      ChatResponse.error
        (check_demo_limits cfgA [("demo@example.com", ⟨2, 10⟩)] "demo@example.com").1.2 none ∧
     (chat_completion cfgA sampleFileEnv UpstreamOutcome.timeoutError "demo@example.com"
        ⟨"hi", "gpt-4", "s1", none, none, false⟩
        ⟨[], [], [("demo@example.com", ⟨2, 10⟩)]⟩).upstreamCalled = false ∧
     (chat_completion cfgA sampleFileEnv UpstreamOutcome.timeoutError "demo@example.com"
        ⟨"hi", "gpt-4", "s1", none, none, false⟩
        ⟨[], [], [("demo@example.com", ⟨2, 10⟩)]⟩).state.chat_sessions = [] ∧
     (chat_completion cfgA sampleFileEnv UpstreamOutcome.timeoutError "demo@example.com"
        ⟨"hi", "gpt-4", "s1", none, none, false⟩
        ⟨[], [], [("demo@example.com", ⟨2, 10⟩)]⟩).state.response_cache = [] ∧
     (∀ e, readUsage (chat_completion cfgA sampleFileEnv UpstreamOutcome.timeoutError
        "demo@example.com" ⟨"hi", "gpt-4", "s1", none, none, false⟩
        ⟨[], [], [("demo@example.com", ⟨2, 10⟩)]⟩).state.user_usage e =
      readUsage [("demo@example.com", ⟨2, 10⟩)] e)) :=
  ⟨by decide,
   usage_denial_immediate cfgA sampleFileEnv UpstreamOutcome.timeoutError "demo@example.com"
     ⟨"hi", "gpt-4", "s1", none, none, false⟩
     ⟨[], [], [("demo@example.com", ⟨2, 10⟩)]⟩ (by decide)⟩

/-- Claim C2: when a first text-path request succeeded, a second request
with the same model, message and file name that passes the limit check
and is not dispatched to the image path is a cache hit: it returns the
same content as the first request, appends exactly the cached reply as an
assistant turn after its own user turn, makes no upstream call, leaves
the cache untouched and does not change the requesting user's counters. -/
theorem cache_hit_idempotent (cfg : Config) (env1 env2 : FileEnv)
    (outc1 outc2 : UpstreamOutcome) (email1 email2 : String) (req1 req2 : ChatRequest)
    (st0 : AppState) (m : String) (fn : Option String)
    (h1 : (chat_completion cfg env1 outc1 email1 req1 st0).response = ChatResponse.success m fn)
    (hmodel : req2.model = req1.model) (hmsg : req2.message = req1.message)
    (hfn : req2.file_name = req1.file_name)
    (hc2 : (check_demo_limits cfg
      (chat_completion cfg env1 outc1 email1 req1 st0).state.user_usage email2).1.1 = true)
    (himg2 : should_generate_image req2 = false) :
    (chat_completion cfg env2 outc2 email2 req2
      (chat_completion cfg env1 outc1 email1 req1 st0).state).response =
        ChatResponse.success m req2.file_name ∧
    (chat_completion cfg env2 outc2 email2 req2
      (chat_completion cfg env1 outc1 email1 req1 st0).state).upstreamCalled = false ∧
    (chat_completion cfg env2 outc2 email2 req2
      (chat_completion cfg env1 outc1 email1 req1 st0).state).state.response_cache =
        (chat_completion cfg env1 outc1 email1 req1 st0).state.response_cache ∧
    readUsage (chat_completion cfg env2 outc2 email2 req2
      (chat_completion cfg env1 outc1 email1 req1 st0).state).state.user_usage email2 =
        readUsage (chat_completion cfg env1 outc1 email1 req1 st0).state.user_usage email2 ∧
    lookupA (chat_completion cfg env2 outc2 email2 req2
      (chat_completion cfg env1 outc1 email1 req1 st0).state).state.chat_sessions
        req2.session_id =
      some (((lookupA (chat_completion cfg env1 outc1 email1 req1 st0).state.chat_sessions
        req2.session_id).getD []) ++ [userTurn req2, assistantTurn m]) := by
  have hkey : lookupA (chat_completion cfg env1 outc1 email1 req1 st0).state.response_cache
      (cacheKey req2.model req2.message req2.file_name) = some m := by
    rw [hmodel, hmsg, hfn]
    exact chat_success_cache cfg env1 outc1 email1 req1 st0 m fn h1
  rw [chat_hit_eq cfg env2 outc2 email2 req2
    (chat_completion cfg env1 outc1 email1 req1 st0).state m hc2 himg2 hkey]
  refine ⟨rfl, rfl, rfl, ?_, ?_⟩
  · show readUsage (check_demo_limits cfg
      (chat_completion cfg env1 outc1 email1 req1 st0).state.user_usage email2).2 email2 =
      readUsage (chat_completion cfg env1 outc1 email1 req1 st0).state.user_usage email2
    exact readUsage_check_snd cfg _ email2 email2
  · show lookupA (alistModify (sessionsAfterUserTurn
      (chat_completion cfg env1 outc1 email1 req1 st0).state.chat_sessions req2)
      req2.session_id (fun turns => turns ++ [assistantTurn m])) req2.session_id = _
    rw [lookupA_alistModify_self, lookupA_sessionsAfterUserTurn]
    simp

/-- Witness for cache_hit_idempotent: a concrete first success followed by
an identical second request, run as the admin user. -/
theorem cache_hit_idempotent_witness :
    ((chat_completion cfgA sampleFileEnv
        (UpstreamOutcome.ok ⟨none, some [⟨some "the reply"⟩]⟩) "admin@example.com"
        ⟨"hi", "gpt-4", "s1", none, none, false⟩ ⟨[], [], []⟩).response =
      ChatResponse.success "the reply" none) ∧
    ((check_demo_limits cfgA (chat_completion cfgA sampleFileEnv
        (UpstreamOutcome.ok ⟨none, some [⟨some "the reply"⟩]⟩) "admin@example.com"
        ⟨"hi", "gpt-4", "s1", none, none, false⟩
        ⟨[], [], []⟩).state.user_usage "admin@example.com").1.1 = true) ∧
    (should_generate_image ⟨"hi", "gpt-4", "s1", none, none, false⟩ = false) ∧
    ((chat_completion cfgA sampleFileEnv UpstreamOutcome.timeoutError "admin@example.com"
        ⟨"hi", "gpt-4", "s1", none, none, false⟩
        (chat_completion cfgA sampleFileEnv
          (UpstreamOutcome.ok ⟨none, some [⟨some "the reply"⟩]⟩) "admin@example.com"
          ⟨"hi", "gpt-4", "s1", none, none, false⟩ ⟨[], [], []⟩).state).response =
      ChatResponse.success "the reply" none) := by
  refine ⟨by decide, by decide, by decide, ?_⟩
  exact (cache_hit_idempotent cfgA sampleFileEnv sampleFileEnv
    (UpstreamOutcome.ok ⟨none, some [⟨some "the reply"⟩]⟩) UpstreamOutcome.timeoutError
    "admin@example.com" "admin@example.com"
    ⟨"hi", "gpt-4", "s1", none, none, false⟩ ⟨"hi", "gpt-4", "s1", none, none, false⟩
    ⟨[], [], []⟩ "the reply" none (by decide) rfl rfl rfl (by decide) (by decide)).1

/-- Claim C7: in the text path, when the parsed upstream body has no error
field and a nonempty choices list but the extracted content is empty or
equals the placeholder string, the endpoint returns the no-content error
payload, appends no assistant turn (the session holds exactly the prior
turns plus the user turn), writes nothing to the cache and leaves the
requesting user's counters unchanged. -/
theorem placeholder_content_error (cfg : Config) (env : FileEnv) (email : String)
    (req : ChatRequest) (st : AppState) (result : UpstreamChatResult)
    (c : UpstreamMessage) (cs : List UpstreamMessage)
    (hc : (check_demo_limits cfg st.user_usage email).1.1 = true)
    (himg : should_generate_image req = false)
    (hmiss : lookupA st.response_cache (cacheKey req.model req.message req.file_name) = none)
    (hE : result.error = none)
    (hC : result.choices = some (c :: cs))
    (hcontent : c.content.getD "No response received" = "" ∨
      c.content.getD "No response received" = "No response received") :
    (chat_completion cfg env (UpstreamOutcome.ok result) email req st).response =
      ChatResponse.error "No response content received from API" req.file_name ∧
    (chat_completion cfg env (UpstreamOutcome.ok result) email req st).state.response_cache =
      st.response_cache ∧
    readUsage (chat_completion cfg env (UpstreamOutcome.ok result) email req st).state.user_usage
      email = readUsage st.user_usage email ∧
    lookupA (chat_completion cfg env (UpstreamOutcome.ok result) email req st).state.chat_sessions
      req.session_id = some (((lookupA st.chat_sessions req.session_id).getD []) ++ [userTurn req]) := by
  rw [chat_miss_eq cfg env (UpstreamOutcome.ok result) email req st hc himg hmiss]
  simp only [handle_upstream, hE, hC]
  rw [if_pos hcontent]
  refine ⟨rfl, rfl, ?_, ?_⟩
  · show readUsage (check_demo_limits cfg st.user_usage email).2 email =
      readUsage st.user_usage email
    exact readUsage_check_snd cfg st.user_usage email email
  · show lookupA (sessionsAfterUserTurn st.chat_sessions req) req.session_id = _
    exact lookupA_sessionsAfterUserTurn st.chat_sessions req

/-- Witness for placeholder_content_error: a concrete upstream body with
one choice whose content key is missing, so extraction yields the
placeholder default. -/
theorem placeholder_content_error_witness :
    ((check_demo_limits cfgA [] "demo@example.com").1.1 = true) ∧
    (should_generate_image ⟨"hi", "gpt-4", "s1", none, none, false⟩ = false) ∧
    (lookupA ([] : List (String × String))
      (cacheKey "gpt-4" "hi" none) = none) ∧
    (((⟨none, some [⟨none⟩]⟩ : UpstreamChatResult).error) = none) ∧
    (((⟨none, some [⟨none⟩]⟩ : UpstreamChatResult).choices) = some [⟨none⟩]) ∧
    (((⟨none⟩ : UpstreamMessage).content.getD "No response received" = "" ∨
      (⟨none⟩ : UpstreamMessage).content.getD "No response received" = "No response received")) ∧
    ((chat_completion cfgA sampleFileEnv (UpstreamOutcome.ok ⟨none, some [⟨none⟩]⟩)
        "demo@example.com" ⟨"hi", "gpt-4", "s1", none, none, false⟩ ⟨[], [], []⟩).response =
      ChatResponse.error "No response content received from API" none ∧
     (chat_completion cfgA sampleFileEnv (UpstreamOutcome.ok ⟨none, some [⟨none⟩]⟩)
        "demo@example.com" ⟨"hi", "gpt-4", "s1", none, none, false⟩ ⟨[], [], []⟩).state.response_cache = [] ∧
     readUsage (chat_completion cfgA sampleFileEnv (UpstreamOutcome.ok ⟨none, some [⟨none⟩]⟩)
        "demo@example.com" ⟨"hi", "gpt-4", "s1", none, none, false⟩
        ⟨[], [], []⟩).state.user_usage "demo@example.com" = readUsage [] "demo@example.com" ∧
     lookupA (chat_completion cfgA sampleFileEnv (UpstreamOutcome.ok ⟨none, some [⟨none⟩]⟩)
        "demo@example.com" ⟨"hi", "gpt-4", "s1", none, none, false⟩
        ⟨[], [], []⟩).state.chat_sessions "s1" =
      some (((lookupA ([] : List (String × List ChatTurn)) "s1").getD []) ++
        [userTurn ⟨"hi", "gpt-4", "s1", none, none, false⟩])) :=
  ⟨by decide, by decide, by decide, rfl, rfl, by decide,
   placeholder_content_error cfgA sampleFileEnv "demo@example.com"
     ⟨"hi", "gpt-4", "s1", none, none, false⟩ ⟨[], [], []⟩ ⟨none, some [⟨none⟩]⟩ ⟨none⟩ []
     (by decide) (by decide) (by decide) rfl rfl (by decide)⟩

/-- Claim C9: on every error return of chat_completion — the denial, the
upstream error field, missing or empty choices, placeholder content, an
HTTP status error, a timeout, a connection failure, malformed JSON or an
unexpected exception — the response cache and the requesting user's
externally read counters are unchanged by the request; the image dispatch
is a distinct payload constructor, so this covers exactly the text path
and the denial. -/
theorem error_return_preserves_cache_and_usage (cfg : Config) (env : FileEnv)
    (outcome : UpstreamOutcome) (email : String) (req : ChatRequest) (st : AppState)
    (msg : String) (fn : Option String)
    (h : (chat_completion cfg env outcome email req st).response = ChatResponse.error msg fn) :
    (chat_completion cfg env outcome email req st).state.response_cache = st.response_cache ∧
    readUsage (chat_completion cfg env outcome email req st).state.user_usage email =
      readUsage st.user_usage email := by
  by_cases hc : (check_demo_limits cfg st.user_usage email).1.1 = true
  · by_cases himg : should_generate_image req = true
    · rw [chat_image_eq cfg env outcome email req st hc himg] at h
      simp at h
    · have himg2 : should_generate_image req = false := by simpa using himg
      cases hhit : lookupA st.response_cache (cacheKey req.model req.message req.file_name) with
      | some cached =>
        rw [chat_hit_eq cfg env outcome email req st cached hc himg2 hhit] at h
        simp at h
      | none =>
        rw [chat_miss_eq cfg env outcome email req st hc himg2 hhit] at h ⊢
        have hstate := handle_upstream_error_state cfg outcome email req (fileBlock env req).1
          (cacheKey req.model req.message req.file_name) (fileBlock env req).2
          ⟨sessionsAfterUserTurn st.chat_sessions req, st.response_cache,
           (check_demo_limits cfg st.user_usage email).2⟩ msg fn h
        rw [hstate]
        exact ⟨rfl, readUsage_check_snd cfg st.user_usage email email⟩
  · have hc2 : (check_demo_limits cfg st.user_usage email).1.1 = false := by
      simpa using hc
    rw [chat_denied_eq cfg env outcome email req st hc2]
    exact ⟨rfl, readUsage_check_snd cfg st.user_usage email email⟩

/-- Witness for error_return_preserves_cache_and_usage at a concrete
timed-out request of a fresh demo user. -/
theorem error_preserves_witness :
    ((chat_completion cfgA sampleFileEnv UpstreamOutcome.timeoutError "demo@example.com"
        ⟨"hi", "gpt-4", "s1", none, none, false⟩ ⟨[], [], []⟩).response =
      ChatResponse.error "Request timed out. Please try again." none) ∧
    ((chat_completion cfgA sampleFileEnv UpstreamOutcome.timeoutError "demo@example.com"
        ⟨"hi", "gpt-4", "s1", none, none, false⟩ ⟨[], [], []⟩).state.response_cache = [] ∧
     readUsage (chat_completion cfgA sampleFileEnv UpstreamOutcome.timeoutError
        "demo@example.com" ⟨"hi", "gpt-4", "s1", none, none, false⟩
        ⟨[], [], []⟩).state.user_usage "demo@example.com" = readUsage [] "demo@example.com") :=
  ⟨by decide,
   error_return_preserves_cache_and_usage cfgA sampleFileEnv UpstreamOutcome.timeoutError
     "demo@example.com" ⟨"hi", "gpt-4", "s1", none, none, false⟩ ⟨[], [], []⟩
     "Request timed out. Please try again." none (by decide)⟩

/-- Claim C10: the cache key depends only on the model, the raw message
and the file name, and the cache probe happens before any file work, so
after a first success a second request that differs arbitrarily in its
uploaded file bytes (and even runs against arbitrary library oracles)
returns the first cached reply without an upstream call and without
decoding or extracting its file. -/
theorem cache_key_ignores_file_content (cfg : Config) (env1 env2 : FileEnv)
    (outc1 outc2 : UpstreamOutcome) (email1 email2 : String) (req1 req2 : ChatRequest)
    (st0 : AppState) (m : String) (fn : Option String)
    (h1 : (chat_completion cfg env1 outc1 email1 req1 st0).response = ChatResponse.success m fn)
    (hmodel : req2.model = req1.model) (hmsg : req2.message = req1.message)
    (hfn : req2.file_name = req1.file_name)
    (hc2 : (check_demo_limits cfg
      (chat_completion cfg env1 outc1 email1 req1 st0).state.user_usage email2).1.1 = true)
    (himg2 : should_generate_image req2 = false) :
    (chat_completion cfg env2 outc2 email2 req2
      (chat_completion cfg env1 outc1 email1 req1 st0).state).response =
        ChatResponse.success m req2.file_name ∧
    (chat_completion cfg env2 outc2 email2 req2
      (chat_completion cfg env1 outc1 email1 req1 st0).state).upstreamCalled = false ∧
    (chat_completion cfg env2 outc2 email2 req2
      (chat_completion cfg env1 outc1 email1 req1 st0).state).fileProcessed = false := by
  have hkey : lookupA (chat_completion cfg env1 outc1 email1 req1 st0).state.response_cache
      (cacheKey req2.model req2.message req2.file_name) = some m := by
    rw [hmodel, hmsg, hfn]
    exact chat_success_cache cfg env1 outc1 email1 req1 st0 m fn h1
  rw [chat_hit_eq cfg env2 outc2 email2 req2
    (chat_completion cfg env1 outc1 email1 req1 st0).state m hc2 himg2 hkey]
  exact ⟨rfl, rfl, rfl⟩

/-- Witness for cache_key_ignores_file_content: two concrete requests with
identical model, message and file name but different base64 payloads. -/
theorem cache_key_ignores_file_content_witness :
    ((chat_completion cfgA sampleFileEnv
        (UpstreamOutcome.ok ⟨none, some [⟨some "file reply"⟩]⟩) "admin@example.com"
        ⟨"hello", "gpt-4", "s2", some "QUFB", some "data.txt", false⟩ ⟨[], [], []⟩).response =
      ChatResponse.success "file reply" (some "data.txt")) ∧
    ((check_demo_limits cfgA (chat_completion cfgA sampleFileEnv
        (UpstreamOutcome.ok ⟨none, some [⟨some "file reply"⟩]⟩) "admin@example.com"
        ⟨"hello", "gpt-4", "s2", some "QUFB", some "data.txt", false⟩
        ⟨[], [], []⟩).state.user_usage "admin@example.com").1.1 = true) ∧
    (should_generate_image ⟨"hello", "gpt-4", "s2", some "QkJC", some "data.txt", false⟩ = false) ∧
    ((chat_completion cfgA sampleFileEnv UpstreamOutcome.connectError "admin@example.com"
        ⟨"hello", "gpt-4", "s2", some "QkJC", some "data.txt", false⟩
        (chat_completion cfgA sampleFileEnv
          (UpstreamOutcome.ok ⟨none, some [⟨some "file reply"⟩]⟩) "admin@example.com"
          ⟨"hello", "gpt-4", "s2", some "QUFB", some "data.txt", false⟩ ⟨[], [], []⟩).state).response =
      ChatResponse.success "file reply" (some "data.txt") ∧
     (chat_completion cfgA sampleFileEnv UpstreamOutcome.connectError "admin@example.com"
        ⟨"hello", "gpt-4", "s2", some "QkJC", some "data.txt", false⟩
        (chat_completion cfgA sampleFileEnv
          (UpstreamOutcome.ok ⟨none, some [⟨some "file reply"⟩]⟩) "admin@example.com"
          ⟨"hello", "gpt-4", "s2", some "QUFB", some "data.txt", false⟩ ⟨[], [], []⟩).state).upstreamCalled = false ∧
     (chat_completion cfgA sampleFileEnv UpstreamOutcome.connectError "admin@example.com"
        ⟨"hello", "gpt-4", "s2", some "QkJC", some "data.txt", false⟩
        (chat_completion cfgA sampleFileEnv
          (UpstreamOutcome.ok ⟨none, some [⟨some "file reply"⟩]⟩) "admin@example.com"
          ⟨"hello", "gpt-4", "s2", some "QUFB", some "data.txt", false⟩ ⟨[], [], []⟩).state).fileProcessed = false) :=
  ⟨by decide, by decide, by decide,
   cache_key_ignores_file_content cfgA sampleFileEnv sampleFileEnv
     (UpstreamOutcome.ok ⟨none, some [⟨some "file reply"⟩]⟩) UpstreamOutcome.connectError
     "admin@example.com" "admin@example.com"
     ⟨"hello", "gpt-4", "s2", some "QUFB", some "data.txt", false⟩
     ⟨"hello", "gpt-4", "s2", some "QkJC", some "data.txt", false⟩
     ⟨[], [], []⟩ "file reply" (some "data.txt") (by decide) rfl rfl rfl (by decide) (by decide)⟩

/-! ## Claim C8: OAuth callback fails closed -/

/-- Claim C8: a callback whose state query parameter differs from the
state stored in the session redirects to the invalid_state login error
and changes nothing — in particular no identity is stored in the session
or in the process-wide user table; when the states match but the
authorization code is missing or empty, it redirects with the no_code
error tag, again changing nothing. -/
theorem oauth_callback_fail_closed (cfg : Config) (env : OAuthEnv) (st : AuthCallbackState)
    (code qstate : Option String) :
    (qstate ≠ st.session.oauth_state →
      auth_callback cfg env st code qstate = ("/login?error=invalid_state", st)) ∧
    (qstate = st.session.oauth_state → code.getD "" = "" →
      auth_callback cfg env st code qstate = ("/login?error=no_code", st)) := by
  constructor
  · intro h
    unfold auth_callback
    rw [if_pos h]
  · intro h hcode
    unfold auth_callback
    rw [if_neg (by simp [h]), if_pos hcode]

/-- Witness for oauth_callback_fail_closed: a concrete mismatched state on
a session that stored a token, and a concrete matching state with no
authorization code. -/
theorem oauth_callback_fail_closed_witness :
    ((some "bad" : Option String) ≠
      (⟨⟨some "tok", none⟩, [], []⟩ : AuthCallbackState).session.oauth_state ∧
      auth_callback cfgA sampleOAuthEnv ⟨⟨some "tok", none⟩, [], []⟩ (some "code123") (some "bad") =
        ("/login?error=invalid_state", ⟨⟨some "tok", none⟩, [], []⟩)) ∧
    ((some "tok" : Option String) =
      (⟨⟨some "tok", none⟩, [], []⟩ : AuthCallbackState).session.oauth_state ∧
      (none : Option String).getD "" = "" ∧
      auth_callback cfgA sampleOAuthEnv ⟨⟨some "tok", none⟩, [], []⟩ none (some "tok") =
        ("/login?error=no_code", ⟨⟨some "tok", none⟩, [], []⟩)) :=
  ⟨⟨by decide,
    (oauth_callback_fail_closed cfgA sampleOAuthEnv ⟨⟨some "tok", none⟩, [], []⟩
      (some "code123") (some "bad")).1 (by decide)⟩,
   ⟨by decide, rfl,
    (oauth_callback_fail_closed cfgA sampleOAuthEnv ⟨⟨some "tok", none⟩, [], []⟩
      none (some "tok")).2 (by decide) rfl⟩⟩
